import Mathlib

/-
Verification development for the per-user background-sending subsystem of the
ElonBot repository (sender.py and the database queries it uses).  The Python
sources are shallowly embedded: SQLite tables become lists of rows, the two
in-memory dictionaries of SenderManager become association lists, and the
sending loop becomes a fuel-style recursion over a list of per-cycle oracle
inputs (which database snapshot each cycle observes, how the transport behaved,
and which random numbers were drawn).
-/

namespace ElonBot

/-- Row of the users table, restricted to the columns the sending subsystem
reads or writes (database.py, init_db). -/
structure UserRow where
  user_id : Nat
  is_active : Nat
  is_banned : Nat
  subscription_until : Nat
  updated_at : Nat
deriving DecidableEq

/-- Row of the profiles table. -/
structure ProfileRow where
  user_id : Nat
  session : String
deriving DecidableEq

/-- Row of the messages table. -/
structure MessageRow where
  user_id : Nat
  text : String
deriving DecidableEq

/-- Row of the user_groups table. -/
structure GroupRow where
  user_id : Nat
  group_id : Int
deriving DecidableEq

/-- The SQLite database state as seen by the sender. -/
structure Db where
  users : List UserRow
  profiles : List ProfileRow
  messages : List MessageRow
  user_groups : List GroupRow
deriving DecidableEq

/-- First row whose key matches, as a SELECT on a primary-key column. -/
def findBy {α : Type} (key : α → Nat) : List α → Nat → Option α
  | [], _ => none
  | r :: t, uid => if key r = uid then some r else findBy key t uid

/-- Database.get_user (database.py line 135). -/
def get_user (db : Db) (uid : Nat) : Option UserRow :=
  findBy UserRow.user_id db.users uid

/-- Database.get_profile (database.py line 184). -/
def get_profile (db : Db) (uid : Nat) : Option ProfileRow :=
  findBy ProfileRow.user_id db.profiles uid

/-- Database.get_message (database.py line 211). -/
def get_message (db : Db) (uid : Nat) : Option MessageRow :=
  findBy MessageRow.user_id db.messages uid

/-- Database.get_user_groups (database.py line 274): the group ids selected by
the user. -/
def get_user_groups (db : Db) (uid : Nat) : List Int :=
  (db.user_groups.filter (fun r => decide (r.user_id = uid))).map GroupRow.group_id

/-- Database.update_user_active_status (database.py line 152): UPDATE users SET
is_active, updated_at WHERE user_id matches. -/
def update_user_active_status (db : Db) (uid : Nat) (v : Nat) (now : Nat) : Db :=
  { db with
    users := db.users.map (fun r =>
      if r.user_id = uid then { r with is_active := v, updated_at := now } else r) }

/-- Database.check_subscription (database.py line 348): true when the row
exists and subscription_until is strictly greater than now. -/
def check_subscription (db : Db) (uid : Nat) (now : Nat) : Bool :=
  match get_user db uid with
  | some r => decide (now < r.subscription_until)
  | none => false

/-- Database.get_expired_subscriptions (database.py line 358): user ids with
0 < subscription_until < now and is_active = 1. -/
def get_expired_subscriptions (db : Db) (now : Nat) : List Nat :=
  (db.users.filter (fun r =>
      decide (0 < r.subscription_until) && decide (r.subscription_until < now)
        && decide (r.is_active = 1))).map UserRow.user_id

/-- Database.get_active_users (database.py line 225): rows with is_active = 1
and is_banned = 0. -/
def get_active_users (db : Db) : List UserRow :=
  db.users.filter (fun r => decide (r.is_active = 1) && decide (r.is_banned = 0))

/-- Dictionary lookup on an association list (python dict access). -/
def dget {α : Type} : List (Nat × α) → Nat → Option α
  | [], _ => none
  | p :: t, k => if p.1 = k then some p.2 else dget t k

/-- Dictionary deletion (python del dict key). -/
def ddel {α : Type} : List (Nat × α) → Nat → List (Nat × α)
  | [], _ => []
  | p :: t, k => if p.1 = k then ddel t k else p :: ddel t k

/-- Dictionary update (python dict key assignment). -/
def dset {α : Type} (l : List (Nat × α)) (k : Nat) (v : α) : List (Nat × α) :=
  (k, v) :: ddel l k

/-- Handle of an asyncio task: an identifier and whether the task has already
finished (task.done in the source). -/
structure TaskH where
  tid : Nat
  done : Bool
deriving DecidableEq

/-- In-memory state of SenderManager: the active_tasks dictionary (user id to
task handle) and the clients dictionary (user id to the connected flag of the
cached Telethon client). -/
structure Mgr where
  active_tasks : List (Nat × TaskH)
  clients : List (Nat × Bool)
deriving DecidableEq

/-- Externally visible side effects performed by the manager operations. -/
inductive Act
  | cancelTask (tid : Nat)
  | disconnectClient
  | spawnTask (tid : Nat)
deriving DecidableEq

/-- Model of SenderManager.stop_sending (sender.py lines 127 to 157): persist
is_active = 0, cancel and remove the task entry when one exists, disconnect and
remove the client entry when one exists.  Awaiting the cancelled task runs the
cleanup of the loop, whose removals coincide with the deletions performed here,
so the model folds those effects into this single operation. -/
def stop_sending (db : Db) (mgr : Mgr) (uid : Nat) (now : Nat) :
    Db × Mgr × List Act :=
  let db1 := update_user_active_status db uid 0 now
  match dget mgr.active_tasks uid with
  | some t =>
      let mgr1 : Mgr := { mgr with active_tasks := ddel mgr.active_tasks uid }
      let a1 : List Act := if t.done then [] else [Act.cancelTask t.tid]
      match dget mgr1.clients uid with
      | some _ =>
          (db1, { mgr1 with clients := ddel mgr1.clients uid },
            a1 ++ [Act.disconnectClient])
      | none => (db1, mgr1, a1)
  | none =>
      match dget mgr.clients uid with
      | some _ =>
          (db1, { mgr with clients := ddel mgr.clients uid },
            [Act.disconnectClient])
      | none => (db1, mgr, [])

/-- Model of SenderManager.start_sending (sender.py lines 114 to 125): no-op if
a not-yet-finished task entry exists, otherwise persist is_active = 1, spawn a
fresh loop task and record its handle. -/
def start_sending (db : Db) (mgr : Mgr) (uid : Nat) (now : Nat) (freshTid : Nat) :
    Db × Mgr × List Act :=
  match dget mgr.active_tasks uid with
  | some t =>
      if t.done = false then (db, mgr, [])
      else
        (update_user_active_status db uid 1 now,
         { mgr with active_tasks := dset mgr.active_tasks uid ⟨freshTid, false⟩ },
         [Act.spawnTask freshTid])
  | none =>
      (update_user_active_status db uid 1 now,
       { mgr with active_tasks := dset mgr.active_tasks uid ⟨freshTid, false⟩ },
       [Act.spawnTask freshTid])

/-- One iteration of SenderManager.restore_active_tasks (sender.py lines 262 to
280): for a persisted-active user, flip inactive if the subscription lapsed or
the setup is incomplete, otherwise invoke start_sending.  The fresh task id is
taken to be the user id. -/
def restore_step (now : Nat) (s : Db × Mgr) (u : UserRow) : Db × Mgr :=
  let uid := u.user_id
  if check_subscription s.1 uid now then
    if (get_profile s.1 uid).isSome && (get_message s.1 uid).isSome
        && !(get_user_groups s.1 uid).isEmpty then
      let r := start_sending s.1 s.2 uid now uid
      (r.1, r.2.1)
    else (update_user_active_status s.1 uid 0 now, s.2)
  else (update_user_active_status s.1 uid 0 now, s.2)

/-- Model of SenderManager.restore_active_tasks (sender.py lines 258 to 280):
fold the per-user restore step over the snapshot of active users taken at
boot. -/
def restore_active_tasks (db : Db) (mgr : Mgr) (now : Nat) : Db × Mgr :=
  (get_active_users db).foldl (restore_step now) (db, mgr)

theorem dget_ddel_self {α : Type} (l : List (Nat × α)) (k : Nat) :
    dget (ddel l k) k = none := by
  induction l with
  | nil => rfl
  | cons p t ih =>
      by_cases h : p.1 = k
      · simpa [ddel, h] using ih
      · simpa [ddel, dget, h] using ih

theorem dget_ddel_ne {α : Type} (l : List (Nat × α)) (k j : Nat) (h : j ≠ k) :
    dget (ddel l k) j = dget l j := by
  induction l with
  | nil => rfl
  | cons p t ih =>
      by_cases hp : p.1 = k
      · have hkj : ¬(k = j) := by omega
        simp [ddel, hp, dget, hkj, ih]
      · by_cases hj : p.1 = j <;> simp [ddel, hp, dget, hj, ih, h]

theorem dget_dset_self {α : Type} (l : List (Nat × α)) (k : Nat) (v : α) :
    dget (dset l k v) k = some v := by
  simp [dset, dget]

theorem dget_dset_ne {α : Type} (l : List (Nat × α)) (k j : Nat) (v : α) (h : j ≠ k) :
    dget (dset l k v) j = dget l j := by
  have hk : k ≠ j := by omega
  simp [dset, dget, hk, dget_ddel_ne l k j h]

theorem countP_ddel_eq_zero {α : Type} (l : List (Nat × α)) (k : Nat) :
    (ddel l k).countP (fun p => decide (p.1 = k)) = 0 := by
  induction l with
  | nil => rfl
  | cons p t ih => by_cases h : p.1 = k <;> simp [ddel, h, List.countP_cons, ih]

theorem update_active_idem (db : Db) (uid v now : Nat) :
    update_user_active_status (update_user_active_status db uid v now) uid v now =
      update_user_active_status db uid v now := by
  unfold update_user_active_status
  simp only [List.map_map]
  congr 1
  refine List.map_congr_left fun r _ => ?_
  by_cases h : r.user_id = uid <;> simp [Function.comp, h]

theorem stop_sending_parts (db : Db) (mgr : Mgr) (uid now : Nat) :
    (stop_sending db mgr uid now).1 = update_user_active_status db uid 0 now ∧
    dget (stop_sending db mgr uid now).2.1.active_tasks uid = none ∧
    dget (stop_sending db mgr uid now).2.1.clients uid = none := by
  unfold stop_sending
  rcases hT : dget mgr.active_tasks uid with _ | t <;>
    rcases hC : dget mgr.clients uid with _ | c <;>
      simp [hT, hC, dget_ddel_self]

/-- C4 (counterexample to the claim as stated): a user with no registry entry
but a live cached client handle; stop_sending does not only set the persisted
active flag, it also disconnects and removes the client handle. -/
theorem c4_counterexample :
    dget (Mgr.mk [] [(7, true)]).active_tasks 7 = none ∧
    stop_sending ⟨[⟨7, 1, 0, 100, 0⟩], [], [], []⟩ (Mgr.mk [] [(7, true)]) 7 5 ≠
      (update_user_active_status ⟨[⟨7, 1, 0, 100, 0⟩], [], [], []⟩ 7 0 5,
        Mgr.mk [] [(7, true)], []) := by
  exact ⟨rfl, by decide⟩

/-- C4 (amended): stop_sending is idempotent (the second of two consecutive
calls leaves the state unchanged and performs no teardown action), and on a
user with no registry entry and no client handle it only sets the persisted
active flag. -/
theorem c4_stop_idempotent (db : Db) (mgr : Mgr) (uid now : Nat) :
    stop_sending (stop_sending db mgr uid now).1 (stop_sending db mgr uid now).2.1 uid now =
      ((stop_sending db mgr uid now).1, (stop_sending db mgr uid now).2.1, []) ∧
    (dget mgr.active_tasks uid = none → dget mgr.clients uid = none →
      stop_sending db mgr uid now = (update_user_active_status db uid 0 now, mgr, [])) := by
  obtain ⟨hdb, hT, hC⟩ := stop_sending_parts db mgr uid now
  constructor
  · conv_lhs => rw [stop_sending]
    rw [hT, hC]
    simp only [hdb, update_active_idem]
  · intro h1 h2
    unfold stop_sending
    rw [h1, h2]

/-- C4 witness: stop_sending on a user with no registry entry and no client
handle only writes the persisted active flag. -/
theorem c4_witness :
    stop_sending ⟨[⟨7, 1, 0, 100, 0⟩], [], [], []⟩ (Mgr.mk [] []) 7 5 =
      (update_user_active_status ⟨[⟨7, 1, 0, 100, 0⟩], [], [], []⟩ 7 0 5,
        Mgr.mk [] [], []) :=
  (c4_stop_idempotent ⟨[⟨7, 1, 0, 100, 0⟩], [], [], []⟩ (Mgr.mk [] []) 7 5).2 rfl rfl

/-- C6: start_sending is a no-op when a not-yet-finished registry entry exists;
otherwise it persists the active flag as 1, emits exactly one spawn action and
records the fresh handle; and the number of registry entries for the user id
never exceeds the maximum of one and its previous value, so a registry that had
at most one entry per user id keeps at most one. -/
theorem c6_start_contract (db : Db) (mgr : Mgr) (uid now tid : Nat) :
    (∀ t : TaskH, dget mgr.active_tasks uid = some t → t.done = false →
        start_sending db mgr uid now tid = (db, mgr, [])) ∧
    ((∀ t : TaskH, dget mgr.active_tasks uid = some t → t.done = true) →
      start_sending db mgr uid now tid =
        (update_user_active_status db uid 1 now,
          { mgr with active_tasks := dset mgr.active_tasks uid ⟨tid, false⟩ },
          [Act.spawnTask tid]) ∧
      dget (start_sending db mgr uid now tid).2.1.active_tasks uid = some ⟨tid, false⟩) ∧
    ((start_sending db mgr uid now tid).2.1.active_tasks.countP
        (fun p => decide (p.1 = uid)) ≤
      max 1 (mgr.active_tasks.countP (fun p => decide (p.1 = uid)))) := by
  rcases hT : dget mgr.active_tasks uid with _ | t
  · refine ⟨?_, ?_, ?_⟩
    · intro t2 ht2
      simp at ht2
    · intro _
      constructor
      · unfold start_sending; rw [hT]
      · unfold start_sending; rw [hT]; simp [dget_dset_self]
    · unfold start_sending; rw [hT]
      simp [dset, List.countP_cons, countP_ddel_eq_zero]
  · rcases hd : t.done with _ | _
    · refine ⟨?_, ?_, ?_⟩
      · intro t2 ht2 _
        unfold start_sending
        rw [hT]
        simp [hd]
      · intro hall
        have hcontra := hall t rfl
        rw [hd] at hcontra
        simp at hcontra
      · unfold start_sending
        rw [hT]
        simp only [hd]
        simp [Nat.le_max_right]
    · refine ⟨?_, ?_, ?_⟩
      · intro t2 ht2 hd2
        cases ht2
        rw [hd] at hd2
        simp at hd2
      · intro _
        constructor
        · unfold start_sending; rw [hT]; simp [hd]
        · unfold start_sending; rw [hT]; simp [hd, dget_dset_self]
      · unfold start_sending
        rw [hT]
        simp only [hd]
        simp [dset, List.countP_cons, countP_ddel_eq_zero]

/-- C6 witness: starting a user whose previous task has finished spawns a fresh
task and records the handle. -/
theorem c6_witness :
    start_sending ⟨[⟨7, 0, 0, 100, 0⟩], [], [], []⟩ (Mgr.mk [(7, ⟨1, true⟩)] []) 7 5 2 =
      (update_user_active_status ⟨[⟨7, 0, 0, 100, 0⟩], [], [], []⟩ 7 1 5,
        { Mgr.mk [(7, ⟨1, true⟩)] [] with
          active_tasks := dset [(7, ⟨1, true⟩)] 7 ⟨2, false⟩ },
        [Act.spawnTask 2]) ∧
    start_sending ⟨[⟨7, 0, 0, 100, 0⟩], [], [], []⟩ (Mgr.mk [(7, ⟨1, false⟩)] []) 7 5 2 =
      (⟨[⟨7, 0, 0, 100, 0⟩], [], [], []⟩, Mgr.mk [(7, ⟨1, false⟩)] [], []) := by
  constructor
  · exact ((c6_start_contract ⟨[⟨7, 0, 0, 100, 0⟩], [], [], []⟩
      (Mgr.mk [(7, ⟨1, true⟩)] []) 7 5 2).2.1
      (by intro t ht; simp [dget] at ht; simp [← ht])).1
  · exact (c6_start_contract ⟨[⟨7, 0, 0, 100, 0⟩], [], [], []⟩
      (Mgr.mk [(7, ⟨1, false⟩)] []) 7 5 2).1 ⟨1, false⟩ rfl rfl

/-- C10: the expired-subscription query returns exactly the ids of rows with
0 < subscription_until < now and active flag 1; in particular an id all of
whose rows have subscription_until = 0 is never returned, so the subscription
checker loop never stops such a user. -/
theorem c10_expired_query (db : Db) (now u : Nat) :
    (u ∈ get_expired_subscriptions db now ↔
      ∃ r ∈ db.users, r.user_id = u ∧ 0 < r.subscription_until ∧
        r.subscription_until < now ∧ r.is_active = 1) ∧
    ((∀ r ∈ db.users, r.user_id = u → r.subscription_until = 0) →
      u ∉ get_expired_subscriptions db now) := by
  have hiff : u ∈ get_expired_subscriptions db now ↔
      ∃ r ∈ db.users, r.user_id = u ∧ 0 < r.subscription_until ∧
        r.subscription_until < now ∧ r.is_active = 1 := by
    simp only [get_expired_subscriptions, List.mem_map, List.mem_filter,
      Bool.and_eq_true, decide_eq_true_eq]
    constructor
    · rintro ⟨r, ⟨hr, ⟨h1, h2⟩, h3⟩, h4⟩
      exact ⟨r, hr, h4, h1, h2, h3⟩
    · rintro ⟨r, hr, h4, h1, h2, h3⟩
      exact ⟨r, ⟨hr, ⟨h1, h2⟩, h3⟩, h4⟩
  refine ⟨hiff, fun h hmem => ?_⟩
  obtain ⟨r, hr, hid, hpos, _, _⟩ := hiff.mp hmem
  have := h r hr hid
  omega

/-- C10 witness: on a concrete table, a lapsed active user is returned and a
never-subscribed active user is not. -/
theorem c10_witness :
    ((5 : Nat) ∈ get_expired_subscriptions
        ⟨[⟨5, 1, 0, 10, 0⟩, ⟨9, 1, 0, 0, 0⟩], [], [], []⟩ 20 ↔
      ∃ r ∈ [(⟨5, 1, 0, 10, 0⟩ : UserRow), ⟨9, 1, 0, 0, 0⟩], r.user_id = 5 ∧
        0 < r.subscription_until ∧ r.subscription_until < 20 ∧ r.is_active = 1) ∧
    (9 : Nat) ∉ get_expired_subscriptions
        ⟨[⟨5, 1, 0, 10, 0⟩, ⟨9, 1, 0, 0, 0⟩], [], [], []⟩ 20 := by
  constructor
  · exact (c10_expired_query ⟨[⟨5, 1, 0, 10, 0⟩, ⟨9, 1, 0, 0, 0⟩], [], [], []⟩ 20 5).1
  · exact (c10_expired_query ⟨[⟨5, 1, 0, 10, 0⟩, ⟨9, 1, 0, 0, 0⟩], [], [], []⟩ 20 9).2
      (by decide)

theorem findBy_key {α : Type} (key : α → Nat) (l : List α) (w : Nat) (r : α)
    (h : findBy key l w = some r) : key r = w := by
  induction l with
  | nil => simp [findBy] at h
  | cons a t ih =>
      rw [findBy] at h
      by_cases ha : key a = w
      · rw [if_pos ha] at h
        cases h
        exact ha
      · rw [if_neg ha] at h
        exact ih h

theorem findBy_mem_nodup {α : Type} (key : α → Nat) (l : List α)
    (hn : (l.map key).Nodup) (u : α) (hu : u ∈ l) :
    findBy key l (key u) = some u := by
  induction l with
  | nil => simp at hu
  | cons a t ih =>
      rw [List.map_cons, List.nodup_cons] at hn
      rcases List.mem_cons.mp hu with h | h
      · subst h
        simp [findBy]
      · rw [findBy]
        by_cases ha : key a = key u
        · exact absurd (ha ▸ List.mem_map_of_mem key h) hn.1
        · rw [if_neg ha]
          exact ih hn.2 h

theorem findBy_userrow_map (f : UserRow → UserRow)
    (hf : ∀ r, (f r).user_id = r.user_id) (l : List UserRow) (w : Nat) :
    findBy UserRow.user_id (l.map f) w = (findBy UserRow.user_id l w).map f := by
  induction l with
  | nil => rfl
  | cons r t ih =>
      simp only [List.map_cons, findBy, hf r]
      by_cases h : r.user_id = w <;> simp [h, ih]

theorem get_user_update (db : Db) (uid v now w : Nat) :
    get_user (update_user_active_status db uid v now) w =
      (get_user db w).map (fun r =>
        if r.user_id = uid then { r with is_active := v, updated_at := now } else r) := by
  unfold get_user update_user_active_status
  exact findBy_userrow_map _ (fun r => by by_cases h : r.user_id = uid <;> simp [h]) _ _

theorem get_user_update_ne (db : Db) (uid v now w : Nat) (hw : w ≠ uid) :
    get_user (update_user_active_status db uid v now) w = get_user db w := by
  rw [get_user_update]
  rcases h : get_user db w with _ | r
  · rfl
  · have hk : r.user_id = w := findBy_key _ _ _ _ h
    have : ¬(r.user_id = uid) := by omega
    simp [this]

theorem get_user_update_self (db : Db) (uid v now : Nat) (u : UserRow)
    (h : get_user db uid = some u) :
    get_user (update_user_active_status db uid v now) uid =
      some { u with is_active := v, updated_at := now } := by
  rw [get_user_update, h]
  have hk : u.user_id = uid := findBy_key _ _ _ _ h
  simp [hk]

theorem get_profile_eq_of (db1 db2 : Db) (h : db1.profiles = db2.profiles) (uid : Nat) :
    get_profile db1 uid = get_profile db2 uid := by
  unfold get_profile; rw [h]

theorem get_message_eq_of (db1 db2 : Db) (h : db1.messages = db2.messages) (uid : Nat) :
    get_message db1 uid = get_message db2 uid := by
  unfold get_message; rw [h]

theorem get_user_groups_eq_of (db1 db2 : Db) (h : db1.user_groups = db2.user_groups)
    (uid : Nat) : get_user_groups db1 uid = get_user_groups db2 uid := by
  unfold get_user_groups; rw [h]

theorem restore_step_shape (now : Nat) (s : Db × Mgr) (u : UserRow) :
    ((restore_step now s u).1 = s.1 ∨
      ∃ v, (restore_step now s u).1 = update_user_active_status s.1 u.user_id v now) ∧
    ((restore_step now s u).1.profiles = s.1.profiles ∧
      (restore_step now s u).1.messages = s.1.messages ∧
      (restore_step now s u).1.user_groups = s.1.user_groups) ∧
    ((restore_step now s u).2.active_tasks = s.2.active_tasks ∨
      (restore_step now s u).2.active_tasks =
        dset s.2.active_tasks u.user_id ⟨u.user_id, false⟩) := by
  have hupd : ∀ (db : Db) (uid v n : Nat),
      (update_user_active_status db uid v n).profiles = db.profiles ∧
      (update_user_active_status db uid v n).messages = db.messages ∧
      (update_user_active_status db uid v n).user_groups = db.user_groups :=
    fun _ _ _ _ => ⟨rfl, rfl, rfl⟩
  unfold restore_step
  dsimp only
  split_ifs with h1 h2
  · unfold start_sending
    rcases hT : dget s.2.active_tasks u.user_id with _ | t
    · exact ⟨Or.inr ⟨1, rfl⟩, hupd _ _ _ _, Or.inr rfl⟩
    · rcases hd : t.done with _ | _
      · simp only [hd, if_pos rfl]
        exact ⟨Or.inl rfl, ⟨rfl, rfl, rfl⟩, Or.inl rfl⟩
      · simp only [hd, Bool.true_eq_false, if_neg (by simp : ¬(True ∧ False))]
        exact ⟨Or.inr ⟨1, by simp⟩, by simp [hupd], Or.inr (by simp)⟩
  · exact ⟨Or.inr ⟨0, rfl⟩, hupd _ _ _ _, Or.inl rfl⟩
  · exact ⟨Or.inr ⟨0, rfl⟩, hupd _ _ _ _, Or.inl rfl⟩

theorem restore_step_other (now : Nat) (s : Db × Mgr) (u : UserRow) (w : Nat)
    (hw : w ≠ u.user_id) :
    get_user (restore_step now s u).1 w = get_user s.1 w ∧
    (restore_step now s u).1.profiles = s.1.profiles ∧
    (restore_step now s u).1.messages = s.1.messages ∧
    (restore_step now s u).1.user_groups = s.1.user_groups ∧
    dget (restore_step now s u).2.active_tasks w = dget s.2.active_tasks w := by
  obtain ⟨hdb, ⟨hp, hm, hg⟩, htasks⟩ := restore_step_shape now s u
  refine ⟨?_, hp, hm, hg, ?_⟩
  · rcases hdb with h | ⟨v, h⟩
    · rw [h]
    · rw [h]
      exact get_user_update_ne _ _ _ _ _ hw
  · rcases htasks with h | h
    · rw [h]
    · rw [h]
      exact dget_dset_ne _ _ _ _ hw

theorem foldl_restore_other (now w : Nat) (rows : List UserRow) :
    ∀ s : Db × Mgr, (∀ r ∈ rows, r.user_id ≠ w) →
      get_user (rows.foldl (restore_step now) s).1 w = get_user s.1 w ∧
      (rows.foldl (restore_step now) s).1.profiles = s.1.profiles ∧
      (rows.foldl (restore_step now) s).1.messages = s.1.messages ∧
      (rows.foldl (restore_step now) s).1.user_groups = s.1.user_groups ∧
      dget (rows.foldl (restore_step now) s).2.active_tasks w =
        dget s.2.active_tasks w := by
  induction rows with
  | nil => exact fun s _ => ⟨rfl, rfl, rfl, rfl, rfl⟩
  | cons r t ih =>
      intro s hw
      have hr : r.user_id ≠ w := hw r (by simp)
      obtain ⟨h1, h2, h3, h4, h5⟩ := restore_step_other now s r w (Ne.symm hr)
      obtain ⟨g1, g2, g3, g4, g5⟩ :=
        ih (restore_step now s r) (fun x hx => hw x (by simp [hx]))
      simp only [List.foldl_cons]
      exact ⟨g1.trans h1, g2.trans h2, g3.trans h3, g4.trans h4, g5.trans h5⟩

/-- C8 (counterexample to the claim as stated): a banned user persisted with
the active flag true, valid subscription and an empty destination set is
skipped by restore_active_tasks, because get_active_users filters on
is_banned = 0; the persisted active flag therefore stays 1 instead of being
set to 0. -/
theorem c8_counterexample :
    (get_user ⟨[⟨7, 1, 1, 100, 0⟩], [], [], []⟩ 7).map UserRow.is_active = some 1 ∧
    (50 : Nat) < 100 ∧
    get_user_groups ⟨[⟨7, 1, 1, 100, 0⟩], [], [], []⟩ 7 = [] ∧
    ¬((get_user (restore_active_tasks ⟨[⟨7, 1, 1, 100, 0⟩], [], [], []⟩
          ⟨[], []⟩ 50).1 7).map UserRow.is_active = some 0) := by
  decide

/-- C8 (amended): for every non-banned user persisted with the active flag
true at boot whose subscription is valid, restore_active_tasks sets the
persisted active flag to 0 and spawns no send task when profile, message or
destination set is absent, and invokes start (recording a live task handle and
keeping the flag at 1) when all three are present. -/
theorem c8_restore (db : Db) (now : Nat) (u : UserRow)
    (hnodup : (db.users.map UserRow.user_id).Nodup)
    (hu : u ∈ db.users) (ha : u.is_active = 1) (hb : u.is_banned = 0)
    (hs : now < u.subscription_until) :
    ((get_profile db u.user_id = none ∨ get_message db u.user_id = none ∨
        get_user_groups db u.user_id = []) →
      get_user (restore_active_tasks db ⟨[], []⟩ now).1 u.user_id =
          some { u with is_active := 0, updated_at := now } ∧
      dget (restore_active_tasks db ⟨[], []⟩ now).2.active_tasks u.user_id = none) ∧
    ((get_profile db u.user_id).isSome → (get_message db u.user_id).isSome →
      get_user_groups db u.user_id ≠ [] →
      get_user (restore_active_tasks db ⟨[], []⟩ now).1 u.user_id =
          some { u with is_active := 1, updated_at := now } ∧
      dget (restore_active_tasks db ⟨[], []⟩ now).2.active_tasks u.user_id =
          some ⟨u.user_id, false⟩) := by
  have humem : u ∈ get_active_users db := by
    unfold get_active_users
    refine List.mem_filter.mpr ⟨hu, ?_⟩
    simp [ha, hb]
  obtain ⟨l1, l2, hsplit⟩ := List.append_of_mem humem
  have hsub : List.Sublist (get_active_users db) db.users :=
    List.filter_sublist db.users
  have hids : ((l1 ++ u :: l2).map UserRow.user_id).Nodup := by
    rw [← hsplit]
    exact (hsub.map UserRow.user_id).nodup hnodup
  rw [List.map_append, List.map_cons, List.nodup_append] at hids
  obtain ⟨h1n, h2n, hdisj⟩ := hids
  have hl1 : ∀ r ∈ l1, r.user_id ≠ u.user_id := by
    intro r hr heq
    exact hdisj (heq ▸ List.mem_map_of_mem UserRow.user_id hr)
      (List.mem_cons_self _ _)
  have hl2 : ∀ r ∈ l2, r.user_id ≠ u.user_id := by
    intro r hr heq
    rw [List.nodup_cons] at h2n
    exact h2n.1 (heq ▸ List.mem_map_of_mem UserRow.user_id hr)
  have hget : get_user db u.user_id = some u :=
    findBy_mem_nodup UserRow.user_id db.users hnodup u hu
  have hfold : restore_active_tasks db ⟨[], []⟩ now =
      l2.foldl (restore_step now)
        (restore_step now (l1.foldl (restore_step now) (db, ⟨[], []⟩)) u) := by
    unfold restore_active_tasks
    rw [hsplit, List.foldl_append, List.foldl_cons]
  obtain ⟨f1, f2, f3, f4, f5⟩ :=
    foldl_restore_other now u.user_id l1 (db, ⟨[], []⟩) hl1
  set s1 := l1.foldl (restore_step now) (db, (⟨[], []⟩ : Mgr)) with hs1
  have hgu1 : get_user s1.1 u.user_id = some u := by rw [f1]; exact hget
  have hsub1 : check_subscription s1.1 u.user_id now = true := by
    unfold check_subscription
    rw [hgu1]
    simp [hs]
  have hp1 : get_profile s1.1 u.user_id = get_profile db u.user_id :=
    get_profile_eq_of _ _ f2 _
  have hm1 : get_message s1.1 u.user_id = get_message db u.user_id :=
    get_message_eq_of _ _ f3 _
  have hg1 : get_user_groups s1.1 u.user_id = get_user_groups db u.user_id :=
    get_user_groups_eq_of _ _ f4 _
  have ht1 : dget s1.2.active_tasks u.user_id = none := by rw [f5]; rfl
  constructor
  · intro hmiss
    have hcond : ((get_profile s1.1 u.user_id).isSome
        && (get_message s1.1 u.user_id).isSome
        && !(get_user_groups s1.1 u.user_id).isEmpty) = false := by
      rcases hmiss with h | h | h
      · simp [hp1, h]
      · simp [hm1, h]
      · simp [hg1, h]
    have hstep : restore_step now s1 u =
        (update_user_active_status s1.1 u.user_id 0 now, s1.2) := by
      unfold restore_step
      dsimp only
      rw [if_pos hsub1, if_neg (by simp [hcond])]
    obtain ⟨g1, _, _, _, g5⟩ := foldl_restore_other now u.user_id l2
      (update_user_active_status s1.1 u.user_id 0 now, s1.2) hl2
    constructor
    · rw [hfold, hstep]
      exact g1.trans (get_user_update_self _ _ _ _ u hgu1)
    · rw [hfold, hstep]
      exact g5.trans ht1
  · intro hp hm hgne
    have hcond : ((get_profile s1.1 u.user_id).isSome
        && (get_message s1.1 u.user_id).isSome
        && !(get_user_groups s1.1 u.user_id).isEmpty) = true := by
      rw [hp1, hm1, hg1]
      simp [hp, hm, List.isEmpty_iff, hgne]
    have hstart : start_sending s1.1 s1.2 u.user_id now u.user_id =
        (update_user_active_status s1.1 u.user_id 1 now,
          Mgr.mk (dset s1.2.active_tasks u.user_id ⟨u.user_id, false⟩)
            s1.2.clients,
          [Act.spawnTask u.user_id]) := by
      unfold start_sending
      rw [ht1]
    have hstep : restore_step now s1 u =
        (update_user_active_status s1.1 u.user_id 1 now,
          Mgr.mk (dset s1.2.active_tasks u.user_id ⟨u.user_id, false⟩)
            s1.2.clients) := by
      unfold restore_step
      dsimp only
      rw [if_pos hsub1, if_pos hcond, hstart]
    obtain ⟨g1, _, _, _, g5⟩ := foldl_restore_other now u.user_id l2
      (update_user_active_status s1.1 u.user_id 1 now,
        Mgr.mk (dset s1.2.active_tasks u.user_id ⟨u.user_id, false⟩)
          s1.2.clients) hl2
    constructor
    · rw [hfold, hstep]
      exact g1.trans (get_user_update_self _ _ _ _ u hgu1)
    · rw [hfold, hstep]
      exact g5.trans (dget_dset_self _ _ _)

/-- C8 witness: a non-banned active user with valid subscription and no
destination set ends up inactive with no task after restore. -/
theorem c8_witness :
    get_user (restore_active_tasks ⟨[⟨7, 1, 0, 100, 0⟩], [], [], []⟩
        ⟨[], []⟩ 50).1 7 =
      some { (⟨7, 1, 0, 100, 0⟩ : UserRow) with is_active := 0, updated_at := 50 } ∧
    dget (restore_active_tasks ⟨[⟨7, 1, 0, 100, 0⟩], [], [], []⟩
        ⟨[], []⟩ 50).2.active_tasks 7 = none :=
  (c8_restore ⟨[⟨7, 1, 0, 100, 0⟩], [], [], []⟩ 50 ⟨7, 1, 0, 100, 0⟩
    (by decide) (by simp) rfl rfl (by decide)).1 (Or.inl rfl)

/-- Outcome of one send_message attempt to a single group together with the
random draws made on that path: ok carries the uniform(2,5) pause, flood
carries the FloodWaitError seconds and the randint(5,15) draw, fail is any
other swallowed exception (sender.py lines 192 to 204). -/
inductive GroupRes
  | ok (pause : ℚ)
  | flood (secs : Nat) (draw : Nat)
  | fail
deriving DecidableEq

/-- Outcome of create_client when the loop needs to (re)connect: ok, a
FloodWaitError with its seconds and the randint(5,15) draw, or any other
exception (sender.py lines 186 to 231). -/
inductive ConnectRes
  | ok
  | flood (secs : Nat) (draw : Nat)
  | err
deriving DecidableEq

/-- Oracle input for one iteration of the while loop: either a normal cycle
with the time observed, the connect outcome, the per-group outcomes, the
interval draw and the backoff jitter draw, or a CancelledError, or an
exception escaping the whole body. -/
inductive CycleEnv
  | normal (nowv : Nat) (connect : ConnectRes) (groups : List GroupRes)
      (interval : Nat) (jitter : ℚ)
  | cancelled
  | crashed
deriving DecidableEq

/-- Observable events of a loop run. -/
inductive Ev
  | dbSetActive (uid v : Nat)
  | send (gid : Int)
  | sleep (q : ℚ)
  | connect
  | disconnect
  | removeClient
  | removeTask
deriving DecidableEq

/-- Local state of the loop body: the retry counter and the local client
variable (none, or some flag telling whether it is connected). -/
structure LoopSt where
  retry_count : Nat
  client : Option Bool
deriving DecidableEq

/-- Backoff before the next retry, min(BASE_RETRY_DELAY * 2 ** retry_count,
MAX_RETRY_DELAY) (sender.py line 229); the uniform(0,5) jitter is added at the
sleep site. -/
def backoff_delay (base maxDelay k : Nat) : Nat :=
  min (base * 2 ^ k) maxDelay

/-- Events of one per-group attempt (sender.py lines 192 to 204): a successful
send is followed by the uniform(2,5) pause; a FloodWaitError sleeps seconds
plus the randint(5,15) draw; any other exception is swallowed. -/
def group_step (g : Int) (res : GroupRes) : List Ev :=
  match res with
  | .ok pause => [Ev.send g, Ev.sleep pause]
  | .flood secs draw => [Ev.sleep ((secs + draw : Nat) : ℚ)]
  | .fail => []

/-- Result of one iteration of the while loop: continue, break, CancelledError
escaping, or another exception escaping the body. -/
inductive CycleOut
  | next (st : LoopSt) (db : Db) (mgr : Mgr) (tr : List Ev)
  | broke (st : LoopSt) (db : Db) (mgr : Mgr) (tr : List Ev)
  | canc (st : LoopSt) (db : Db) (mgr : Mgr) (tr : List Ev)
  | crash (st : LoopSt) (db : Db) (mgr : Mgr) (tr : List Ev)
deriving DecidableEq

/-- Dispatch to all selected groups followed by the interval sleep and the
reset of retry_count (sender.py lines 192 to 214). -/
def send_all (gs : List Int) (gress : List GroupRes) (interval : Nat)
    (st : LoopSt) (db : Db) (mgr : Mgr) (tr0 : List Ev) : CycleOut :=
  let tr1 := ((gs.zip gress).map (fun p => group_step p.1 p.2)).flatten
  CycleOut.next { st with retry_count := 0 } db mgr
    (tr0 ++ tr1 ++ [Ev.sleep ((interval : Nat) : ℚ)])

/-- The try block of one cycle (sender.py lines 186 to 231): reuse the client
when connected, otherwise create it; a cycle-level FloodWaitError sleeps
seconds plus draw and continues; any other cycle-level exception increments
retry_count, stops with a persisted inactive flag once MAX_RETRY_ATTEMPTS is
reached, and otherwise sleeps the capped exponential backoff plus jitter. -/
def cycle_body (maxRetry base maxDelay uid nowv : Nat) (gs : List Int)
    (cres : ConnectRes) (gress : List GroupRes) (interval : Nat) (jitter : ℚ)
    (st : LoopSt) (db : Db) (mgr : Mgr) : CycleOut :=
  if st.client = some true then
    send_all gs gress interval st db mgr []
  else
    match cres with
    | .ok =>
        send_all gs gress interval { st with client := some true } db
          { mgr with clients := dset mgr.clients uid true } [Ev.connect]
    | .flood secs draw =>
        CycleOut.next st db mgr [Ev.sleep ((secs + draw : Nat) : ℚ)]
    | .err =>
        if maxRetry ≤ st.retry_count + 1 then
          CycleOut.broke { st with retry_count := st.retry_count + 1 }
            (update_user_active_status db uid 0 nowv) mgr [Ev.dbSetActive uid 0]
        else
          CycleOut.next { st with retry_count := st.retry_count + 1 } db mgr
            [Ev.sleep ((backoff_delay base maxDelay (st.retry_count + 1) : ℚ)
              + jitter)]

/-- One iteration of the while loop (sender.py lines 165 to 231): the three
precondition checks in source order, then the try block. -/
def cycle (maxRetry base maxDelay uid : Nat) (env : CycleEnv)
    (st : LoopSt) (db : Db) (mgr : Mgr) : CycleOut :=
  match env with
  | .cancelled => CycleOut.canc st db mgr []
  | .crashed => CycleOut.crash st db mgr []
  | .normal nowv cres gress interval jitter =>
    match get_user db uid with
    | none => CycleOut.broke st db mgr []
    | some u =>
      if u.is_active = 0 ∨ u.is_banned = 1 then CycleOut.broke st db mgr []
      else if check_subscription db uid nowv then
        if (get_profile db uid).isNone || (get_message db uid).isNone
            || (get_user_groups db uid).isEmpty then
          CycleOut.broke st db mgr []
        else
          cycle_body maxRetry base maxDelay uid nowv (get_user_groups db uid)
            cres gress interval jitter st db mgr
      else
        CycleOut.broke st (update_user_active_status db uid 0 nowv) mgr
          [Ev.dbSetActive uid 0]

/-- How a run of the while loop ended. -/
inductive ExitReason
  | stoppedExit
  | cancelledExit
  | crashedExit
deriving DecidableEq

/-- Result of running the while loop on a list of cycle oracles: either an
exit with its reason, or the fuel ran out with the loop still going. -/
inductive RunOut
  | exited (r : ExitReason) (st : LoopSt) (db : Db) (mgr : Mgr) (tr : List Ev)
  | fuel (st : LoopSt) (db : Db) (mgr : Mgr) (tr : List Ev)
deriving DecidableEq

/-- Run the while loop over a list of per-cycle oracles. -/
def run_cycles (maxRetry base maxDelay uid : Nat) :
    List CycleEnv → LoopSt → Db → Mgr → RunOut
  | [], st, db, mgr => RunOut.fuel st db mgr []
  | e :: es, st, db, mgr =>
    match cycle maxRetry base maxDelay uid e st db mgr with
    | .next st1 db1 mgr1 tr =>
        match run_cycles maxRetry base maxDelay uid es st1 db1 mgr1 with
        | .exited r st2 db2 mgr2 tr2 => RunOut.exited r st2 db2 mgr2 (tr ++ tr2)
        | .fuel st2 db2 mgr2 tr2 => RunOut.fuel st2 db2 mgr2 (tr ++ tr2)
    | .broke st1 db1 mgr1 tr => RunOut.exited .stoppedExit st1 db1 mgr1 tr
    | .canc st1 db1 mgr1 tr => RunOut.exited .cancelledExit st1 db1 mgr1 tr
    | .crash st1 db1 mgr1 tr => RunOut.exited .crashedExit st1 db1 mgr1 tr

/-- The finally block of the loop (sender.py lines 238 to 256): disconnect the
local client if connected, remove the client map entry if present, remove the
registry entry if present. -/
def loop_cleanup (uid : Nat) (st : LoopSt) (mgr : Mgr) : Mgr × List Ev :=
  let tr1 : List Ev := if st.client = some true then [Ev.disconnect] else []
  let p2 : Mgr × List Ev :=
    if (dget mgr.clients uid).isSome then
      ({ mgr with clients := ddel mgr.clients uid }, [Ev.removeClient])
    else (mgr, [])
  let p3 : Mgr × List Ev :=
    if (dget p2.1.active_tasks uid).isSome then
      ({ p2.1 with active_tasks := ddel p2.1.active_tasks uid }, [Ev.removeTask])
    else (p2.1, [])
  (p3.1, tr1 ++ p2.2 ++ p3.2)

/-- Model of the whole _sending_loop coroutine (sender.py lines 159 to 256):
run the while loop, apply the CancelledError or generic exception handler, and
always run the finally cleanup; none when the fuel ran out with the loop still
running. -/
def sending_loop (maxRetry base maxDelay uid nowF : Nat) (envs : List CycleEnv)
    (st0 : LoopSt) (db : Db) (mgr : Mgr) : Option (Db × Mgr × List Ev) :=
  match run_cycles maxRetry base maxDelay uid envs st0 db mgr with
  | .fuel _ _ _ _ => none
  | .exited r st1 db1 mgr1 tr =>
      let hPair : Db × List Ev :=
        match r with
        | .crashedExit =>
            (update_user_active_status db1 uid 0 nowF, [Ev.dbSetActive uid 0])
        | _ => (db1, [])
      let c := loop_cleanup uid st1 mgr1
      some (hPair.1, c.1, tr ++ hPair.2 ++ c.2)

/-- A cycle oracle whose connect attempt fails with a generic exception. -/
def err_env (nowv interval : Nat) (jitter : ℚ) : CycleEnv :=
  CycleEnv.normal nowv ConnectRes.err [] interval jitter

/-- Trace of k consecutive backoff sleeps starting from retry counter r. -/
def errtrace (base maxDelay : Nat) (jitter : ℚ) : Nat → Nat → List Ev
  | _, 0 => []
  | r, k + 1 =>
      Ev.sleep ((backoff_delay base maxDelay (r + 1) : ℚ) + jitter) ::
        errtrace base maxDelay jitter (r + 1) k

theorem loop_cleanup_clients_none (uid : Nat) (st : LoopSt) (mgr : Mgr) :
    dget (loop_cleanup uid st mgr).1.clients uid = none := by
  rcases hC : dget mgr.clients uid with _ | b <;>
    rcases hT : dget mgr.active_tasks uid with _ | t <;>
      simp [loop_cleanup, hC, hT, dget_ddel_self]

theorem loop_cleanup_tasks_none (uid : Nat) (st : LoopSt) (mgr : Mgr) :
    dget (loop_cleanup uid st mgr).1.active_tasks uid = none := by
  rcases hC : dget mgr.clients uid with _ | b <;>
    rcases hT : dget mgr.active_tasks uid with _ | t <;>
      simp [loop_cleanup, hC, hT, dget_ddel_self]

theorem loop_cleanup_disconnect_mem (uid : Nat) (st : LoopSt) (mgr : Mgr)
    (h : st.client = some true) : Ev.disconnect ∈ (loop_cleanup uid st mgr).2 := by
  rcases hC : dget mgr.clients uid with _ | b <;>
    rcases hT : dget mgr.active_tasks uid with _ | t <;>
      simp [loop_cleanup, h, hC, hT]

theorem loop_cleanup_events (uid : Nat) (st : LoopSt) (mgr : Mgr) (e : Ev)
    (he : e ∈ (loop_cleanup uid st mgr).2) :
    e = Ev.disconnect ∨ e = Ev.removeClient ∨ e = Ev.removeTask := by
  by_cases hcl : st.client = some true <;>
    rcases hC : dget mgr.clients uid with _ | b <;>
      rcases hT : dget mgr.active_tasks uid with _ | t <;>
        simp [loop_cleanup, hcl, hC, hT] at he <;> tauto

theorem loop_cleanup_removeTask_mem (uid : Nat) (st : LoopSt) (mgr : Mgr)
    (h : (dget mgr.active_tasks uid).isSome) :
    Ev.removeTask ∈ (loop_cleanup uid st mgr).2 := by
  rcases hT : dget mgr.active_tasks uid with _ | t
  · rw [hT] at h
    simp at h
  · by_cases hcl : st.client = some true <;>
      rcases hC : dget mgr.clients uid with _ | b <;>
        simp [loop_cleanup, hcl, hC, hT]

/-- C5: on every exit path of the loop (break, cancellation or an escaping
exception) the finally cleanup runs: the resulting manager has no client entry
and no registry entry for the user, and if the local client was connected at
exit the emitted events include a disconnect. -/
theorem c5_cleanup_on_exit (maxRetry base maxDelay uid nowF : Nat)
    (envs : List CycleEnv) (st : LoopSt) (db : Db) (mgr : Mgr)
    (r : ExitReason) (st1 : LoopSt) (db1 : Db) (mgr1 : Mgr) (tr1 : List Ev)
    (hrun : run_cycles maxRetry base maxDelay uid envs st db mgr =
      RunOut.exited r st1 db1 mgr1 tr1) :
    ∃ dbf trf,
      sending_loop maxRetry base maxDelay uid nowF envs st db mgr =
        some (dbf, (loop_cleanup uid st1 mgr1).1, trf) ∧
      dget (loop_cleanup uid st1 mgr1).1.clients uid = none ∧
      dget (loop_cleanup uid st1 mgr1).1.active_tasks uid = none ∧
      (st1.client = some true → Ev.disconnect ∈ trf) := by
  unfold sending_loop
  rw [hrun]
  cases r <;>
    exact ⟨_, _, rfl, loop_cleanup_clients_none uid st1 mgr1,
      loop_cleanup_tasks_none uid st1 mgr1,
      fun h => List.mem_append_right _ (loop_cleanup_disconnect_mem uid st1 mgr1 h)⟩

/-- C5 witness: a cancelled run with a connected local client and live map
entries ends with both entries gone and a disconnect emitted. -/
theorem c5_witness :
    ∃ dbf trf,
      sending_loop 3 2 64 7 10 [CycleEnv.cancelled] ⟨0, some true⟩
          ⟨[⟨7, 1, 0, 100, 0⟩], [], [], []⟩ ⟨[(7, ⟨1, false⟩)], [(7, true)]⟩ =
        some (dbf,
          (loop_cleanup 7 ⟨0, some true⟩ ⟨[(7, ⟨1, false⟩)], [(7, true)]⟩).1, trf) ∧
      dget (loop_cleanup 7 ⟨0, some true⟩
          ⟨[(7, ⟨1, false⟩)], [(7, true)]⟩).1.clients 7 = none ∧
      dget (loop_cleanup 7 ⟨0, some true⟩
          ⟨[(7, ⟨1, false⟩)], [(7, true)]⟩).1.active_tasks 7 = none ∧
      ((⟨0, some true⟩ : LoopSt).client = some true → Ev.disconnect ∈ trf) :=
  c5_cleanup_on_exit 3 2 64 7 10 [CycleEnv.cancelled] ⟨0, some true⟩
    ⟨[⟨7, 1, 0, 100, 0⟩], [], [], []⟩ ⟨[(7, ⟨1, false⟩)], [(7, true)]⟩
    .cancelledExit ⟨0, some true⟩ ⟨[⟨7, 1, 0, 100, 0⟩], [], [], []⟩
    ⟨[(7, ⟨1, false⟩)], [(7, true)]⟩ [] rfl

/-- C9: when the loop exits through the CancelledError handler, the returned
database is exactly the database at the moment of cancellation (the loop
writes nothing on that path, so the active flag keeps whatever value the
caller of stop persisted and every other field is untouched), and the
exit-path events contain no database write. -/
theorem c9_cancel_frame (maxRetry base maxDelay uid nowF : Nat)
    (envs : List CycleEnv) (st : LoopSt) (db : Db) (mgr : Mgr)
    (st1 : LoopSt) (db1 : Db) (mgr1 : Mgr) (tr1 : List Ev)
    (hrun : run_cycles maxRetry base maxDelay uid envs st db mgr =
      RunOut.exited .cancelledExit st1 db1 mgr1 tr1) :
    sending_loop maxRetry base maxDelay uid nowF envs st db mgr =
      some (db1, (loop_cleanup uid st1 mgr1).1,
        tr1 ++ (loop_cleanup uid st1 mgr1).2) ∧
    (∀ w v : Nat, Ev.dbSetActive w v ∉ (loop_cleanup uid st1 mgr1).2) := by
  constructor
  · unfold sending_loop
    rw [hrun]
    simp
  · intro w v hv
    rcases loop_cleanup_events uid st1 mgr1 _ hv with h | h | h <;> simp at h

/-- C9 witness: a run cancelled in its first cycle returns the database
unchanged. -/
theorem c9_witness :
    sending_loop 3 2 64 7 10 [CycleEnv.cancelled] ⟨0, none⟩
        ⟨[⟨7, 1, 0, 100, 0⟩], [], [], []⟩ ⟨[], []⟩ =
      some (⟨[⟨7, 1, 0, 100, 0⟩], [], [], []⟩,
        (loop_cleanup 7 ⟨0, none⟩ ⟨[], []⟩).1,
        [] ++ (loop_cleanup 7 ⟨0, none⟩ ⟨[], []⟩).2) ∧
    (∀ w v : Nat, Ev.dbSetActive w v ∉ (loop_cleanup 7 ⟨0, none⟩ ⟨[], []⟩).2) :=
  c9_cancel_frame 3 2 64 7 10 [CycleEnv.cancelled] ⟨0, none⟩
    ⟨[⟨7, 1, 0, 100, 0⟩], [], [], []⟩ ⟨[], []⟩ ⟨0, none⟩
    ⟨[⟨7, 1, 0, 100, 0⟩], [], [], []⟩ ⟨[], []⟩ [] rfl

/-- C7: when the subscription check fails during a cycle (now is not below
subscription_until), the loop exits in that same cycle, the persisted active
flag is written to 0 as the first event, and the registry-entry removal
happens strictly after it in the exit trace. -/
theorem c7_expired_mid_cycle (maxRetry base maxDelay uid nowF : Nat)
    (db : Db) (mgr : Mgr) (st : LoopSt) (u : UserRow) (envs : List CycleEnv)
    (nowv : Nat) (cres : ConnectRes) (gress : List GroupRes) (interval : Nat)
    (jitter : ℚ)
    (hget : get_user db uid = some u) (ha : u.is_active = 1)
    (hb : u.is_banned = 0) (hs : u.subscription_until ≤ nowv)
    (htask : (dget mgr.active_tasks uid).isSome) :
    run_cycles maxRetry base maxDelay uid
        (CycleEnv.normal nowv cres gress interval jitter :: envs) st db mgr =
      RunOut.exited .stoppedExit st (update_user_active_status db uid 0 nowv)
        mgr [Ev.dbSetActive uid 0] ∧
    sending_loop maxRetry base maxDelay uid nowF
        (CycleEnv.normal nowv cres gress interval jitter :: envs) st db mgr =
      some (update_user_active_status db uid 0 nowv,
        (loop_cleanup uid st mgr).1,
        Ev.dbSetActive uid 0 :: (loop_cleanup uid st mgr).2) ∧
    Ev.removeTask ∈ (loop_cleanup uid st mgr).2 ∧
    (get_user (update_user_active_status db uid 0 nowv) uid).map
        UserRow.is_active = some 0 := by
  have hcyc : cycle maxRetry base maxDelay uid
      (CycleEnv.normal nowv cres gress interval jitter) st db mgr =
      CycleOut.broke st (update_user_active_status db uid 0 nowv) mgr
        [Ev.dbSetActive uid 0] := by
    have hcs : check_subscription db uid nowv = false := by
      unfold check_subscription
      rw [hget]
      simp only [decide_eq_false_iff_not, not_lt]
      omega
    simp [cycle, hget, hcs, ha, hb]
  have hrun : run_cycles maxRetry base maxDelay uid
      (CycleEnv.normal nowv cres gress interval jitter :: envs) st db mgr =
      RunOut.exited .stoppedExit st (update_user_active_status db uid 0 nowv)
        mgr [Ev.dbSetActive uid 0] := by
    simp only [run_cycles, hcyc]
  refine ⟨hrun, ?_, loop_cleanup_removeTask_mem uid st mgr htask, ?_⟩
  · unfold sending_loop
    rw [hrun]
    simp
  · rw [get_user_update_self db uid 0 nowv u hget]
    rfl

/-- C7 witness: a user whose subscription_until equals the observed time is
stopped within the cycle with the flag write preceding the registry
removal. -/
theorem c7_witness :
    run_cycles 3 2 64 7
        [CycleEnv.normal 100 ConnectRes.ok [] 0 0] ⟨0, none⟩
        ⟨[⟨7, 1, 0, 100, 0⟩], [], [], []⟩ ⟨[(7, ⟨1, false⟩)], []⟩ =
      RunOut.exited .stoppedExit ⟨0, none⟩
        (update_user_active_status ⟨[⟨7, 1, 0, 100, 0⟩], [], [], []⟩ 7 0 100)
        ⟨[(7, ⟨1, false⟩)], []⟩ [Ev.dbSetActive 7 0] ∧
    sending_loop 3 2 64 7 100
        [CycleEnv.normal 100 ConnectRes.ok [] 0 0] ⟨0, none⟩
        ⟨[⟨7, 1, 0, 100, 0⟩], [], [], []⟩ ⟨[(7, ⟨1, false⟩)], []⟩ =
      some (update_user_active_status ⟨[⟨7, 1, 0, 100, 0⟩], [], [], []⟩ 7 0 100,
        (loop_cleanup 7 ⟨0, none⟩ ⟨[(7, ⟨1, false⟩)], []⟩).1,
        Ev.dbSetActive 7 0 :: (loop_cleanup 7 ⟨0, none⟩ ⟨[(7, ⟨1, false⟩)], []⟩).2) ∧
    Ev.removeTask ∈ (loop_cleanup 7 ⟨0, none⟩ ⟨[(7, ⟨1, false⟩)], []⟩).2 ∧
    (get_user (update_user_active_status ⟨[⟨7, 1, 0, 100, 0⟩], [], [], []⟩ 7 0 100)
        7).map UserRow.is_active = some 0 :=
  c7_expired_mid_cycle 3 2 64 7 100 ⟨[⟨7, 1, 0, 100, 0⟩], [], [], []⟩
    ⟨[(7, ⟨1, false⟩)], []⟩ ⟨0, none⟩ ⟨7, 1, 0, 100, 0⟩ []
    100 ConnectRes.ok [] 0 0 rfl rfl rfl (by decide) rfl

/-- C1 (counterexample to the claim as stated): a user with the active flag
set, not banned, a valid subscription and no stored profile; the loop
terminates in that first cycle without retrying, yet the persisted active
flag remains 1 rather than becoming 0. -/
theorem c1_counterexample :
    sending_loop 3 2 64 7 10 [CycleEnv.normal 10 ConnectRes.ok [] 0 0]
        ⟨0, none⟩ ⟨[⟨7, 1, 0, 100, 0⟩], [], [], []⟩ ⟨[], []⟩ =
      some (⟨[⟨7, 1, 0, 100, 0⟩], [], [], []⟩, ⟨[], []⟩, []) ∧
    get_profile ⟨[⟨7, 1, 0, 100, 0⟩], [], [], []⟩ 7 = none ∧
    ¬((get_user ⟨[⟨7, 1, 0, 100, 0⟩], [], [], []⟩ 7).map UserRow.is_active
        = some 0) := by
  refine ⟨by decide, rfl, by decide⟩

/-- C1 (amended): if during a cycle any of profile, message or destination set
is absent while the user row passes the active, ban and subscription checks,
the loop terminates within that cycle with no retry (the exit path emits no
sleep), and the persisted active flag is not written on this path: it stays at
1, so the fault is reported only by the termination of the task. -/
theorem c1_config_fault (maxRetry base maxDelay uid nowF : Nat) (db : Db)
    (mgr : Mgr) (st : LoopSt) (u : UserRow) (envs : List CycleEnv)
    (nowv : Nat) (cres : ConnectRes) (gress : List GroupRes) (interval : Nat)
    (jitter : ℚ)
    (hget : get_user db uid = some u) (ha : u.is_active = 1)
    (hb : u.is_banned = 0) (hsub : nowv < u.subscription_until)
    (hmiss : ((get_profile db uid).isNone || (get_message db uid).isNone
      || (get_user_groups db uid).isEmpty) = true) :
    run_cycles maxRetry base maxDelay uid
        (CycleEnv.normal nowv cres gress interval jitter :: envs) st db mgr =
      RunOut.exited .stoppedExit st db mgr [] ∧
    sending_loop maxRetry base maxDelay uid nowF
        (CycleEnv.normal nowv cres gress interval jitter :: envs) st db mgr =
      some (db, (loop_cleanup uid st mgr).1, (loop_cleanup uid st mgr).2) ∧
    (∀ q : ℚ, Ev.sleep q ∉ (loop_cleanup uid st mgr).2) ∧
    (get_user db uid).map UserRow.is_active = some 1 := by
  have hcs : check_subscription db uid nowv = true := by
    unfold check_subscription
    rw [hget]
    simp [hsub]
  have hcyc : cycle maxRetry base maxDelay uid
      (CycleEnv.normal nowv cres gress interval jitter) st db mgr =
      CycleOut.broke st db mgr [] := by
    simp [cycle, hget, hcs, ha, hb, hmiss]
  have hrun : run_cycles maxRetry base maxDelay uid
      (CycleEnv.normal nowv cres gress interval jitter :: envs) st db mgr =
      RunOut.exited .stoppedExit st db mgr [] := by
    simp only [run_cycles, hcyc]
  refine ⟨hrun, ?_, ?_, ?_⟩
  · unfold sending_loop
    rw [hrun]
    simp
  · intro q hq
    rcases loop_cleanup_events uid st mgr _ hq with h | h | h <;> simp at h
  · rw [hget]
    simp [ha]

/-- C1 witness: a user with no profile is stopped in the first cycle with no
sleep emitted and the flag left at 1. -/
theorem c1_witness :
    run_cycles 3 2 64 7 [CycleEnv.normal 10 ConnectRes.ok [] 0 0] ⟨0, none⟩
        ⟨[⟨7, 1, 0, 100, 0⟩], [], [], []⟩ ⟨[], []⟩ =
      RunOut.exited .stoppedExit ⟨0, none⟩ ⟨[⟨7, 1, 0, 100, 0⟩], [], [], []⟩
        ⟨[], []⟩ [] ∧
    sending_loop 3 2 64 7 10 [CycleEnv.normal 10 ConnectRes.ok [] 0 0]
        ⟨0, none⟩ ⟨[⟨7, 1, 0, 100, 0⟩], [], [], []⟩ ⟨[], []⟩ =
      some (⟨[⟨7, 1, 0, 100, 0⟩], [], [], []⟩,
        (loop_cleanup 7 ⟨0, none⟩ ⟨[], []⟩).1,
        (loop_cleanup 7 ⟨0, none⟩ ⟨[], []⟩).2) ∧
    (∀ q : ℚ, Ev.sleep q ∉ (loop_cleanup 7 ⟨0, none⟩ ⟨[], []⟩).2) ∧
    (get_user ⟨[⟨7, 1, 0, 100, 0⟩], [], [], []⟩ 7).map UserRow.is_active
      = some 1 :=
  c1_config_fault 3 2 64 7 10 ⟨[⟨7, 1, 0, 100, 0⟩], [], [], []⟩ ⟨[], []⟩
    ⟨0, none⟩ ⟨7, 1, 0, 100, 0⟩ [] 10 ConnectRes.ok [] 0 0
    rfl rfl rfl (by decide) (by decide)

/-- C2 (counterexample to the claim as stated): with retryAfterSeconds 10 and
the randint(5,15) draw landing on its inclusive upper end 15, the slept delay
is exactly 25 = R + 15, which is not strictly less than R + 15; this holds on
the per-destination path and on the cycle-level path alike. -/
theorem c2_counterexample :
    group_step 5 (GroupRes.flood 10 15) = [Ev.sleep 25] ∧
    cycle_body 3 2 64 7 10 [5] (ConnectRes.flood 10 15) [] 0 0 ⟨0, none⟩
        ⟨[], [], [], []⟩ ⟨[], []⟩ =
      CycleOut.next ⟨0, none⟩ ⟨[], [], [], []⟩ ⟨[], []⟩ [Ev.sleep 25] ∧
    5 ≤ 15 ∧ 15 ≤ 15 ∧ ¬((25 : ℚ) < 10 + 15) := by
  refine ⟨by decide, by decide, by decide, by decide, by norm_num⟩

/-- C2 (amended): every rate-limit rejection with retryAfterSeconds R sleeps
exactly R plus the randint(5,15) draw before the next attempt on that
destination or cycle, a delay that is at least R and at most R + 15. -/
theorem c2_flood_delay (R d : Nat) (g : Int)
    (maxRetry base maxDelay uid nowv interval : Nat) (gs : List Int)
    (gress : List GroupRes) (jitter : ℚ) (st : LoopSt) (db : Db) (mgr : Mgr)
    (h5 : 5 ≤ d) (h15 : d ≤ 15) (hcl : ¬(st.client = some true)) :
    group_step g (GroupRes.flood R d) = [Ev.sleep ((R + d : Nat) : ℚ)] ∧
    cycle_body maxRetry base maxDelay uid nowv gs (ConnectRes.flood R d) gress
        interval jitter st db mgr =
      CycleOut.next st db mgr [Ev.sleep ((R + d : Nat) : ℚ)] ∧
    (R : ℚ) ≤ ((R + d : Nat) : ℚ) ∧ ((R + d : Nat) : ℚ) ≤ (R : ℚ) + 15 := by
  refine ⟨rfl, ?_, ?_, ?_⟩
  · simp [cycle_body, hcl]
  · push_cast
    have hd0 : (0 : ℚ) ≤ (d : ℚ) := by positivity
    linarith
  · push_cast
    have hd : (d : ℚ) ≤ 15 := by exact_mod_cast h15
    linarith

/-- C2 witness: a concrete flood with R = 20 and draw 7 sleeps 27 seconds,
within the bounds. -/
theorem c2_witness :
    group_step 5 (GroupRes.flood 20 7) = [Ev.sleep ((20 + 7 : Nat) : ℚ)] ∧
    cycle_body 3 2 64 7 10 [5] (ConnectRes.flood 20 7) [] 0 0 ⟨0, none⟩
        ⟨[], [], [], []⟩ ⟨[], []⟩ =
      CycleOut.next ⟨0, none⟩ ⟨[], [], [], []⟩ ⟨[], []⟩
        [Ev.sleep ((20 + 7 : Nat) : ℚ)] ∧
    (20 : ℚ) ≤ ((20 + 7 : Nat) : ℚ) ∧ ((20 + 7 : Nat) : ℚ) ≤ (20 : ℚ) + 15 :=
  c2_flood_delay 20 7 5 3 2 64 7 10 0 [5] [] 0 ⟨0, none⟩ ⟨[], [], [], []⟩
    ⟨[], []⟩ (by decide) (by decide) (by decide)

theorem cycle_err_step (maxRetry base maxDelay uid nowv interval : Nat)
    (jitter : ℚ) (db : Db) (mgr : Mgr) (u : UserRow) (r : Nat)
    (hget : get_user db uid = some u) (ha : u.is_active = 1)
    (hb : u.is_banned = 0) (hsub : nowv < u.subscription_until)
    (hprof : (get_profile db uid).isSome) (hmsg : (get_message db uid).isSome)
    (hgrp : (get_user_groups db uid).isEmpty = false) :
    cycle maxRetry base maxDelay uid (err_env nowv interval jitter)
        ⟨r, none⟩ db mgr =
      if maxRetry ≤ r + 1 then
        CycleOut.broke ⟨r + 1, none⟩ (update_user_active_status db uid 0 nowv)
          mgr [Ev.dbSetActive uid 0]
      else
        CycleOut.next ⟨r + 1, none⟩ db mgr
          [Ev.sleep ((backoff_delay base maxDelay (r + 1) : ℚ) + jitter)] := by
  have hcs : check_subscription db uid nowv = true := by
    unfold check_subscription
    rw [hget]
    simp [hsub]
  rcases Option.isSome_iff_exists.mp hprof with ⟨p, hp⟩
  rcases Option.isSome_iff_exists.mp hmsg with ⟨m, hm⟩
  by_cases hm2 : maxRetry ≤ r + 1 <;>
    simp [cycle, err_env, hget, hcs, ha, hb, hp, hm, hgrp, cycle_body, hm2]

theorem run_err_under (maxRetry base maxDelay uid nowv interval : Nat)
    (jitter : ℚ) (db : Db) (mgr : Mgr) (u : UserRow)
    (hget : get_user db uid = some u) (ha : u.is_active = 1)
    (hb : u.is_banned = 0) (hsub : nowv < u.subscription_until)
    (hprof : (get_profile db uid).isSome) (hmsg : (get_message db uid).isSome)
    (hgrp : (get_user_groups db uid).isEmpty = false) :
    ∀ (k r : Nat), r + k < maxRetry →
      run_cycles maxRetry base maxDelay uid
          (List.replicate k (err_env nowv interval jitter)) ⟨r, none⟩ db mgr =
        RunOut.fuel ⟨r + k, none⟩ db mgr
          (errtrace base maxDelay jitter r k) := by
  intro k
  induction k with
  | zero => intro r hr; simp [run_cycles, errtrace]
  | succ k ih =>
      intro r hr
      have hstep := cycle_err_step maxRetry base maxDelay uid nowv interval
        jitter db mgr u r hget ha hb hsub hprof hmsg hgrp
      rw [if_neg (by omega)] at hstep
      rw [List.replicate_succ]
      simp only [run_cycles, hstep]
      rw [ih (r + 1) (by omega)]
      rw [show r + 1 + k = r + (k + 1) from by omega]
      simp [errtrace]

theorem run_err_fatal (maxRetry base maxDelay uid nowv interval : Nat)
    (jitter : ℚ) (db : Db) (mgr : Mgr) (u : UserRow)
    (hget : get_user db uid = some u) (ha : u.is_active = 1)
    (hb : u.is_banned = 0) (hsub : nowv < u.subscription_until)
    (hprof : (get_profile db uid).isSome) (hmsg : (get_message db uid).isSome)
    (hgrp : (get_user_groups db uid).isEmpty = false) :
    ∀ (k r : Nat), r < maxRetry → maxRetry ≤ r + k →
      run_cycles maxRetry base maxDelay uid
          (List.replicate k (err_env nowv interval jitter)) ⟨r, none⟩ db mgr =
        RunOut.exited .stoppedExit ⟨maxRetry, none⟩
          (update_user_active_status db uid 0 nowv) mgr
          (errtrace base maxDelay jitter r (maxRetry - r - 1)
            ++ [Ev.dbSetActive uid 0]) := by
  intro k
  induction k with
  | zero => intro r h1 h2; omega
  | succ k ih =>
      intro r h1 h2
      have hstep := cycle_err_step maxRetry base maxDelay uid nowv interval
        jitter db mgr u r hget ha hb hsub hprof hmsg hgrp
      by_cases hc : maxRetry ≤ r + 1
      · rw [if_pos hc] at hstep
        rw [List.replicate_succ]
        simp only [run_cycles, hstep]
        have hr1 : r + 1 = maxRetry := by omega
        have ht0 : maxRetry - r - 1 = 0 := by omega
        rw [ht0]
        simp [errtrace, hr1]
      · rw [if_neg hc] at hstep
        rw [List.replicate_succ]
        simp only [run_cycles, hstep]
        rw [ih (r + 1) (by omega) (by omega)]
        have hsucc : maxRetry - r - 1 = (maxRetry - (r + 1) - 1) + 1 := by omega
        rw [hsucc]
        simp [errtrace]

/-- C3: with all cycle preconditions holding, a run of exactly
MAX_RETRY_ATTEMPTS consecutive cycle-level faults persists the inactive flag
and terminates the loop; any shorter run of consecutive faults leaves the loop
running, having slept one backoff delay per fault; and the deterministic
backoff delay min(base * 2 ^ k, maxDelay) is non-decreasing in the attempt
counter and strictly increasing while the cap is not yet reached. -/
theorem c3_retry_policy (maxRetry base maxDelay uid : Nat) (db : Db)
    (mgr : Mgr) (u : UserRow) (nowv interval : Nat) (jitter : ℚ)
    (hmax : 0 < maxRetry)
    (hget : get_user db uid = some u) (ha : u.is_active = 1)
    (hb : u.is_banned = 0) (hsub : nowv < u.subscription_until)
    (hprof : (get_profile db uid).isSome) (hmsg : (get_message db uid).isSome)
    (hgrp : (get_user_groups db uid).isEmpty = false) :
    run_cycles maxRetry base maxDelay uid
        (List.replicate maxRetry (err_env nowv interval jitter)) ⟨0, none⟩
        db mgr =
      RunOut.exited .stoppedExit ⟨maxRetry, none⟩
        (update_user_active_status db uid 0 nowv) mgr
        (errtrace base maxDelay jitter 0 (maxRetry - 1)
          ++ [Ev.dbSetActive uid 0]) ∧
    (∀ k, k < maxRetry →
      run_cycles maxRetry base maxDelay uid
          (List.replicate k (err_env nowv interval jitter)) ⟨0, none⟩ db mgr =
        RunOut.fuel ⟨k, none⟩ db mgr (errtrace base maxDelay jitter 0 k)) ∧
    (∀ k, backoff_delay base maxDelay k ≤ backoff_delay base maxDelay (k + 1)) ∧
    (∀ k, 0 < base → base * 2 ^ (k + 1) ≤ maxDelay →
      backoff_delay base maxDelay k < backoff_delay base maxDelay (k + 1)) := by
  refine ⟨?_, ?_, ?_, ?_⟩
  · have h := run_err_fatal maxRetry base maxDelay uid nowv interval jitter
      db mgr u hget ha hb hsub hprof hmsg hgrp maxRetry 0 hmax (by omega)
    simpa using h
  · intro k hk
    have h := run_err_under maxRetry base maxDelay uid nowv interval jitter
      db mgr u hget ha hb hsub hprof hmsg hgrp k 0 (by omega)
    simpa using h
  · intro k
    unfold backoff_delay
    exact min_le_min
      (Nat.mul_le_mul_left base (Nat.pow_le_pow_right (by norm_num) (Nat.le_succ k)))
      le_rfl
  · intro k hbase hcap
    unfold backoff_delay
    have h1 : base * 2 ^ k ≤ base * 2 ^ (k + 1) :=
      Nat.mul_le_mul_left base (Nat.pow_le_pow_right (by norm_num) (Nat.le_succ k))
    have h2 : 0 < base * 2 ^ k := by positivity
    rw [Nat.min_eq_left (le_trans h1 hcap), Nat.min_eq_left hcap]
    have h3 : base * 2 ^ (k + 1) = base * 2 ^ k * 2 := by ring
    omega

/-- C3 witness: with three allowed attempts, two faults leave the loop
retrying with sleeps, and three faults stop it with the flag persisted to 0;
the backoff schedule 4, 8 grows. -/
theorem c3_witness :
    run_cycles 3 2 64 7 (List.replicate 3 (err_env 10 0 0)) ⟨0, none⟩
        ⟨[⟨7, 1, 0, 100, 0⟩], [⟨7, "s"⟩], [⟨7, "m"⟩], [⟨7, 3⟩]⟩ ⟨[], []⟩ =
      RunOut.exited .stoppedExit ⟨3, none⟩
        (update_user_active_status
          ⟨[⟨7, 1, 0, 100, 0⟩], [⟨7, "s"⟩], [⟨7, "m"⟩], [⟨7, 3⟩]⟩ 7 0 10)
        ⟨[], []⟩ (errtrace 2 64 0 0 2 ++ [Ev.dbSetActive 7 0]) ∧
    run_cycles 3 2 64 7 (List.replicate 2 (err_env 10 0 0)) ⟨0, none⟩
        ⟨[⟨7, 1, 0, 100, 0⟩], [⟨7, "s"⟩], [⟨7, "m"⟩], [⟨7, 3⟩]⟩ ⟨[], []⟩ =
      RunOut.fuel ⟨2, none⟩
        ⟨[⟨7, 1, 0, 100, 0⟩], [⟨7, "s"⟩], [⟨7, "m"⟩], [⟨7, 3⟩]⟩ ⟨[], []⟩
        (errtrace 2 64 0 0 2) ∧
    backoff_delay 2 64 1 ≤ backoff_delay 2 64 2 ∧
    backoff_delay 2 64 1 < backoff_delay 2 64 2 := by
  have h := c3_retry_policy 3 2 64 7
    ⟨[⟨7, 1, 0, 100, 0⟩], [⟨7, "s"⟩], [⟨7, "m"⟩], [⟨7, 3⟩]⟩ ⟨[], []⟩
    ⟨7, 1, 0, 100, 0⟩ 10 0 0 (by decide) rfl rfl rfl (by decide)
    (by decide) (by decide) (by decide)
  exact ⟨h.1, h.2.1 2 (by decide), h.2.2.1 1, h.2.2.2 1 (by decide) (by decide)⟩

end ElonBot
